import Mathlib

/-!
Shallow embedding of the shorts-writer-agent core:
script validation (`validateScript`), retry planning (`determineRetryAction`,
`RetryStrategy`), the generation orchestrator (`ScriptGenerator`), the hearing
state machine (`HearingSession`) and the two prompt composers.

TypeScript strings are modelled as lists of characters (`Str`); TypeScript
numbers appearing as character counts are `Nat`, and signed differences
(shortfall/excess) are `Int`.  Optional object fields are `Option`, with
JavaScript truthiness of a string (`!s`, `if (s)`) modelled explicitly as
non-emptiness.  Thrown exceptions become `Except`.
-/

namespace ShortsWriter

/-- TypeScript strings as character lists. -/
abbrev Str := List Char

/-- Coerce a Lean string literal to the `Str` model. -/
def str (s : String) : Str := s.data

/-- JS `String.prototype.startsWith` on the list model. -/
def startsWith : Str → Str → Bool
  | _, [] => true
  | [], _ :: _ => false
  | c :: cs, d :: ds => c == d && startsWith cs ds

/-- JS `String.prototype.includes` on the list model. -/
def containsSub (hay needle : Str) : Bool :=
  match hay with
  | [] => needle.isEmpty
  | _ :: t => startsWith hay needle || containsSub t needle

/-- `!s || s.trim() === ''`: the string is empty or all whitespace. -/
def isBlankStr (s : Str) : Bool := s.all (fun c => c.isWhitespace)

/-- JS `Array.prototype.join('\n')`. -/
def joinNL : List Str → Str
  | [] => []
  | [x] => x
  | x :: y :: t => x ++ '\n' :: joinNL (y :: t)

/-- JS `String.prototype.trim`. -/
def trimStr (s : Str) : Str :=
  ((s.dropWhile (fun c => c.isWhitespace)).reverse.dropWhile
    (fun c => c.isWhitespace)).reverse

/-- Decimal rendering of a `Nat`, as used by template interpolation. -/
def natToStr (n : Nat) : Str := (toString n).data

/-- Decimal rendering of an `Int`, as used by template interpolation. -/
def intToStr (i : Int) : Str := (toString i).data

/-- `CtaPurpose` from `types/script.ts`. -/
inductive CtaPurpose
  | longVideo
  | like
  | comment
deriving DecidableEq

/-- `ValidationErrorCode` from `types/script.ts`. -/
inductive ValidationErrorCode
  | MISSING_HOOK
  | MISSING_BODY
  | MISSING_CTA
  | INVALID_ORDER
  | CONTAINS_EMOJI
  | TOO_SHORT
  | TOO_LONG
  | CTA_MISMATCH_LONG_VIDEO
  | CTA_MISMATCH_LIKE
  | CTA_MISMATCH_COMMENT
deriving DecidableEq

/-- `ValidationError` from `types/script.ts`. -/
structure ValidationError where
  code : ValidationErrorCode
  message : Str
deriving DecidableEq

/-- `ValidationResult` from `types/script.ts`. -/
structure ValidationResult where
  valid : Bool
  errors : List ValidationError
deriving DecidableEq

/-- `Script` from `types/script.ts`: hook/body/cta required,
context/proof/transition optional. -/
structure Script where
  hook : Str
  context : Option Str := none
  body : Str
  proof : Option Str := none
  transition : Option Str := none
  cta : Str
deriving DecidableEq

/-- `MIN_LENGTH` in `validator.ts`. -/
def MIN_LENGTH : Nat := 250

/-- `MAX_LENGTH` in `validator.ts`. -/
def MAX_LENGTH : Nat := 400

/-- `CTA_KEYWORDS` in `validator.ts`. -/
def CTA_KEYWORDS : CtaPurpose → List Str
  | .longVideo => [str "長尺", str "本編", str "フル"]
  | .like => [str "いいね", str "高評価", str "グッド"]
  | .comment => [str "コメント", str "感想", str "教えて"]

/-- `CTA_ERROR_CODES` in `validator.ts`. -/
def CTA_ERROR_CODES : CtaPurpose → ValidationErrorCode
  | .longVideo => .CTA_MISMATCH_LONG_VIDEO
  | .like => .CTA_MISMATCH_LIKE
  | .comment => .CTA_MISMATCH_COMMENT

/-- The code-point ranges of `EMOJI_REGEX` in `validator.ts` (each
alternative of the regex is a one-character class). -/
def emojiRanges : List (Nat × Nat) :=
  [(0x1F600, 0x1F64F), (0x1F300, 0x1F5FF), (0x1F680, 0x1F6FF),
   (0x1F1E0, 0x1F1FF), (0x2600, 0x26FF), (0x2700, 0x27BF),
   (0xFE00, 0xFE0F), (0x1F900, 0x1F9FF), (0x1FA00, 0x1FA6F),
   (0x1FA70, 0x1FAFF), (0x231A, 0x231B), (0x23E9, 0x23F3),
   (0x23F8, 0x23FA), (0x25AA, 0x25AB), (0x25B6, 0x25B6),
   (0x25C0, 0x25C0), (0x25FB, 0x25FE), (0x2614, 0x2615),
   (0x2648, 0x2653), (0x267F, 0x267F), (0x2693, 0x2693),
   (0x26A1, 0x26A1), (0x26AA, 0x26AB), (0x26BD, 0x26BE),
   (0x26C4, 0x26C5), (0x26CE, 0x26CE), (0x26D4, 0x26D4),
   (0x26EA, 0x26EA), (0x26F2, 0x26F3), (0x26F5, 0x26F5),
   (0x26FA, 0x26FA), (0x26FD, 0x26FD), (0x2702, 0x2702),
   (0x2705, 0x2705), (0x2708, 0x270D), (0x270F, 0x270F),
   (0x2712, 0x2712), (0x2714, 0x2714), (0x2716, 0x2716),
   (0x271D, 0x271D), (0x2721, 0x2721), (0x2728, 0x2728),
   (0x2733, 0x2734), (0x2744, 0x2744), (0x2747, 0x2747),
   (0x274C, 0x274C), (0x274E, 0x274E), (0x2753, 0x2755),
   (0x2757, 0x2757), (0x2763, 0x2764), (0x2795, 0x2797),
   (0x27A1, 0x27A1), (0x27B0, 0x27B0), (0x27BF, 0x27BF),
   (0x2934, 0x2935), (0x2B05, 0x2B07), (0x2B1B, 0x2B1C),
   (0x2B50, 0x2B50), (0x2B55, 0x2B55), (0x3030, 0x3030),
   (0x303D, 0x303D), (0x3297, 0x3297), (0x3299, 0x3299)]

/-- One character matches `EMOJI_REGEX`. -/
def isEmojiChar (c : Char) : Bool :=
  emojiRanges.any (fun r => decide (r.1 ≤ c.toNat ∧ c.toNat ≤ r.2))

/-- The six fields in the fixed order used by `validateNoEmoji` and
`validateLength`, after `.filter(Boolean)`: absent fields and empty strings
are dropped. -/
def presentFields (script : Script) : List Str :=
  (([some script.hook, script.context, some script.body, script.proof,
     script.transition, some script.cta] : List (Option Str)).filterMap id).filter
    (fun s => !s.isEmpty)

/-- `[...].filter(Boolean).join('')` over the six fields. -/
def allText (script : Script) : Str := (presentFields script).flatten

/-- The measured total length used by `validateLength`. -/
def totalLength (script : Script) : Nat := (allText script).length

/-- Message of the `MISSING_HOOK` error. -/
def missingHookMsg : Str :=
  str "フック（hook）が存在しません。視聴者の注意を引く冒頭が必要です。"

/-- Message of the `MISSING_BODY` error. -/
def missingBodyMsg : Str :=
  str "本編（body）が存在しません。価値を提供する本編が必要です。"

/-- Message of the `MISSING_CTA` error. -/
def missingCtaMsg : Str :=
  str "CTA（cta）が存在しません。行動を促す呼びかけが必要です。"

/-- Message of the `CONTAINS_EMOJI` error. -/
def emojiMsg : Str :=
  str "台本に絵文字が含まれています。読み上げ用途として不適切です。"

/-- Message of the `TOO_SHORT` error, interpolating the measured count. -/
def tooShortMsg (totalLen : Nat) : Str :=
  str "台本が短すぎます。250文字以上必要です（現在: " ++ natToStr totalLen
    ++ str "文字）。"

/-- Message of the `TOO_LONG` error, interpolating the measured count. -/
def tooLongMsg (totalLen : Nat) : Str :=
  str "台本が長すぎます。400文字以下にしてください（現在: " ++ natToStr totalLen
    ++ str "文字）。"

/-- `purposeDescriptions` in `validateCtaPurpose`. -/
def purposeDescription : CtaPurpose → Str
  | .longVideo => str "長尺動画への誘導"
  | .like => str "高評価の促進"
  | .comment => str "コメントの促進"

/-- JS `Array.prototype.join('、')`. -/
def joinKeywords : List Str → Str
  | [] => []
  | [x] => x
  | x :: y :: t => x ++ str "、" ++ joinKeywords (y :: t)

/-- Message of a CTA mismatch error, interpolating description and keywords. -/
def ctaMismatchMsg (p : CtaPurpose) : Str :=
  str "CTA目的「" ++ purposeDescription p ++ str "」に対応するワード（"
    ++ joinKeywords (CTA_KEYWORDS p) ++ str "のいずれか）が含まれていません。"

/-- `validateStructure` in `validator.ts`: each push on the mutable error
array becomes a list append. -/
def validateStructure (script : Script) : List ValidationError :=
  (if isBlankStr script.hook then [⟨.MISSING_HOOK, missingHookMsg⟩] else [])
    ++ (if isBlankStr script.body then [⟨.MISSING_BODY, missingBodyMsg⟩] else [])
    ++ (if isBlankStr script.cta then [⟨.MISSING_CTA, missingCtaMsg⟩] else [])

/-- `validateNoEmoji` in `validator.ts`. -/
def validateNoEmoji (script : Script) : List ValidationError :=
  if (allText script).any isEmojiChar then [⟨.CONTAINS_EMOJI, emojiMsg⟩] else []

/-- `validateLength` in `validator.ts`. -/
def validateLength (script : Script) : List ValidationError :=
  (if totalLength script < MIN_LENGTH then
    [⟨.TOO_SHORT, tooShortMsg (totalLength script)⟩] else [])
    ++ (if totalLength script > MAX_LENGTH then
      [⟨.TOO_LONG, tooLongMsg (totalLength script)⟩] else [])

/-- `validateCtaPurpose` in `validator.ts`. -/
def validateCtaPurpose (script : Script) (ctaPurpose : CtaPurpose) :
    List ValidationError :=
  if (CTA_KEYWORDS ctaPurpose).any (fun keyword => containsSub script.cta keyword)
  then []
  else [⟨CTA_ERROR_CODES ctaPurpose, ctaMismatchMsg ctaPurpose⟩]

/-- `validateScript` in `validator.ts`: the four checks run in order on one
accumulating error array; `valid` iff no error was accumulated. -/
def validateScript (script : Script) (ctaPurpose : CtaPurpose) :
    ValidationResult :=
  let errors := validateStructure script ++ validateNoEmoji script
    ++ validateLength script ++ validateCtaPurpose script ctaPurpose
  ⟨errors.isEmpty, errors⟩

/-- `MIN_CHARS` in `retry-strategy.ts`. -/
def MIN_CHARS : Nat := 250

/-- `MAX_CHARS` in `retry-strategy.ts`. -/
def MAX_CHARS : Nat := 400

/-- `MAX_RETRIES` in `retry-strategy.ts`. -/
def MAX_RETRIES : Nat := 3

/-- `SHORTFALL_THRESHOLD_FOR_RETRY` in `retry-strategy.ts`. -/
def SHORTFALL_THRESHOLD_FOR_RETRY : Int := 50

/-- `EXCESS_THRESHOLD_FOR_RETRY` in `retry-strategy.ts`. -/
def EXCESS_THRESHOLD_FOR_RETRY : Int := 50

/-- `RetryAction` in `retry-strategy.ts`. -/
inductive RetryAction
  | retry_with_prompt
  | request_more_info
  | no_retry
deriving DecidableEq

/-- `RetryDecision` in `retry-strategy.ts`. -/
structure RetryDecision where
  action : RetryAction
  shortfall : Option Int := none
  excess : Option Int := none
  reason : Option Str := none
deriving DecidableEq

/-- The retryable error-code list inside `determineRetryAction`. -/
def retryableErrors : List ValidationErrorCode :=
  [.CONTAINS_EMOJI, .CTA_MISMATCH_LONG_VIDEO, .CTA_MISMATCH_LIKE,
   .CTA_MISMATCH_COMMENT, .MISSING_HOOK, .MISSING_BODY, .MISSING_CTA,
   .INVALID_ORDER]

/-- `determineRetryAction` in `retry-strategy.ts`. -/
def determineRetryAction (errors : List ValidationError)
    (currentLength : Nat) : RetryDecision :=
  match errors.find? (fun e => e.code == .TOO_SHORT) with
  | some _ =>
    let shortfall : Int := (MIN_CHARS : Int) - (currentLength : Int)
    if shortfall ≤ SHORTFALL_THRESHOLD_FOR_RETRY then
      { action := .retry_with_prompt, shortfall := some shortfall }
    else
      { action := .request_more_info, shortfall := some shortfall }
  | none =>
    match errors.find? (fun e => e.code == .TOO_LONG) with
    | some _ =>
      let excess : Int := (currentLength : Int) - (MAX_CHARS : Int)
      if excess ≤ EXCESS_THRESHOLD_FOR_RETRY then
        { action := .retry_with_prompt, excess := some excess }
      else
        { action := .request_more_info, excess := some excess }
    | none =>
      if errors.any (fun e => retryableErrors.contains e.code) then
        { action := .retry_with_prompt }
      else
        { action := .no_retry }

namespace RetryStrategy

/-- `RetryStrategy.canRetry`. -/
def canRetry (currentAttempt : Nat) : Bool := currentAttempt < MAX_RETRIES

/-- The adjustment text for a `TOO_SHORT` error. -/
def tooShortAdjustment (currentLength : Nat) : Str :=
  str "【重要】前回の台本は" ++ intToStr ((MIN_CHARS : Int) - (currentLength : Int))
    ++ str "文字ほど短すぎました。もう少し詳しく説明を追加して、全体で250〜400文字になるように長くしてください。"

/-- The adjustment text for a `TOO_LONG` error. -/
def tooLongAdjustment (currentLength : Nat) : Str :=
  str "【重要】前回の台本は" ++ intToStr ((currentLength : Int) - (MAX_CHARS : Int))
    ++ str "文字ほど長すぎました。内容を簡潔にまとめて、全体で250〜400文字になるように短くしてください。"

/-- The adjustment text for a `CONTAINS_EMOJI` error. -/
def emojiAdjustment : Str :=
  str "【重要】絵文字は絶対に使用しないでください。絵文字を含めないでください。"

/-- The adjustment text for a `CTA_MISMATCH_LONG_VIDEO` error. -/
def ctaLongVideoAdjustment : Str :=
  str "【重要】CTAには必ず「長尺」「本編」「フル」のいずれかのワードを含めてください。"

/-- The adjustment text for a `CTA_MISMATCH_LIKE` error. -/
def ctaLikeAdjustment : Str :=
  str "【重要】CTAには必ず「いいね」「高評価」「グッド」のいずれかのワードを含めてください。"

/-- The adjustment text for a `CTA_MISMATCH_COMMENT` error. -/
def ctaCommentAdjustment : Str :=
  str "【重要】CTAには必ず「コメント」「感想」「教えて」のいずれかのワードを含めてください。"

/-- The adjustment text for a `MISSING_HOOK` error. -/
def missingHookAdjustment : Str :=
  str "【重要】hookフィールドが空でした。視聴者の注意を引く冒頭フレーズを必ず含めてください。"

/-- The adjustment text for a `MISSING_BODY` error. -/
def missingBodyAdjustment : Str :=
  str "【重要】bodyフィールドが空でした。本編の内容を必ず含めてください。"

/-- The adjustment text for a `MISSING_CTA` error. -/
def missingCtaAdjustment : Str :=
  str "【重要】ctaフィールドが空でした。行動喚起を必ず含めてください。"

/-- The `switch` in `adjustPrompt`: adjustments pushed for one error entry
(`INVALID_ORDER` has no case and pushes nothing). -/
def adjustmentForError (code : ValidationErrorCode) (currentLength : Nat) :
    List Str :=
  match code with
  | .TOO_SHORT => [tooShortAdjustment currentLength]
  | .TOO_LONG => [tooLongAdjustment currentLength]
  | .CONTAINS_EMOJI => [emojiAdjustment]
  | .CTA_MISMATCH_LONG_VIDEO => [ctaLongVideoAdjustment]
  | .CTA_MISMATCH_LIKE => [ctaLikeAdjustment]
  | .CTA_MISMATCH_COMMENT => [ctaCommentAdjustment]
  | .MISSING_HOOK => [missingHookAdjustment]
  | .MISSING_BODY => [missingBodyAdjustment]
  | .MISSING_CTA => [missingCtaAdjustment]
  | .INVALID_ORDER => []

/-- The `for (const error of errors)` loop in `adjustPrompt`. -/
def collectAdjustments (errors : List ValidationError) (currentLength : Nat) :
    List Str :=
  match errors with
  | [] => []
  | e :: rest =>
    adjustmentForError e.code currentLength ++ collectAdjustments rest currentLength

/-- The fixed correction section header appended by `adjustPrompt`. -/
def correctionHeader : Str := str "\n\n---\n## 修正指示\n"

/-- `RetryStrategy.adjustPrompt`. -/
def adjustPrompt (originalPrompt : Str) (errors : List ValidationError)
    (currentLength : Nat) : Str :=
  let adjustments := collectAdjustments errors currentLength
  if adjustments.isEmpty then originalPrompt
  else originalPrompt ++ correctionHeader ++ joinNL adjustments

end RetryStrategy

/-- Message role, shared by `types/hearing.ts` and `types/script.ts`
(`HearingMessageForRequest` is a re-declaration of the same shape). -/
inductive ChatRole
  | user
  | assistant
deriving DecidableEq

/-- `HearingMessage` from `types/hearing.ts`. -/
structure HearingMessage where
  role : ChatRole
  content : Str
deriving DecidableEq

/-- `HearingState` from `types/hearing.ts`. -/
inductive HearingState
  | not_started
  | in_progress
  | completed
deriving DecidableEq

/-- The `reason` values of `CanGenerateResult` in `types/hearing.ts`. -/
inductive CanGenerateReason
  | HEARING_NOT_STARTED
  | HEARING_NOT_COMPLETED
deriving DecidableEq

/-- `CanGenerateResult` from `types/hearing.ts`. -/
structure CanGenerateResult where
  allowed : Bool
  reason : Option CanGenerateReason := none
deriving DecidableEq

/-- `HearingContext` from `types/hearing.ts`. -/
structure HearingContext where
  topic : Str
  history : List HearingMessage
  ctaPurpose : CtaPurpose
deriving DecidableEq

/-- The fields of `HearingSession` in `hearing-session.ts`, with their
initializers. -/
structure HearingSession where
  state : HearingState := .not_started
  topic : Str := []
  history : List HearingMessage := []
  ctaPurpose : CtaPurpose := .longVideo
deriving DecidableEq

namespace HearingSession

/-- A freshly constructed `new HearingSession()`. -/
def init : HearingSession := {}

/-- `HearingSession.setTopic`. -/
def setTopic (s : HearingSession) (topic : Str) : HearingSession :=
  { s with topic := topic }

/-- `HearingSession.setCtaPurpose`. -/
def setCtaPurpose (s : HearingSession) (purpose : CtaPurpose) : HearingSession :=
  { s with ctaPurpose := purpose }

/-- `HearingSession.start`: unconditionally sets `in_progress`. -/
def start (s : HearingSession) : HearingSession :=
  { s with state := .in_progress }

/-- `HearingSession.complete`: unconditionally sets `completed`. -/
def complete (s : HearingSession) : HearingSession :=
  { s with state := .completed }

/-- `HearingSession.addMessage`. -/
def addMessage (s : HearingSession) (message : HearingMessage) : HearingSession :=
  { s with history := s.history ++ [message] }

/-- `HearingSession.canGenerate`. -/
def canGenerate (s : HearingSession) : CanGenerateResult :=
  if s.state = .not_started then
    { allowed := false, reason := some .HEARING_NOT_STARTED }
  else if s.state = .in_progress then
    { allowed := false, reason := some .HEARING_NOT_COMPLETED }
  else
    { allowed := true }

/-- The message of the error thrown by `getContextForGeneration`. -/
def hearingNotCompletedMsg : Str := str "ヒアリングが完了していません"

/-- `HearingSession.getContextForGeneration`: the `throw` becomes `.error`. -/
def getContextForGeneration (s : HearingSession) : Except Str HearingContext :=
  if s.state ≠ .completed then .error hearingNotCompletedMsg
  else .ok { topic := s.topic, history := s.history, ctaPurpose := s.ctaPurpose }

end HearingSession

/-- One call against a `HearingSession`; `canGenerate` and
`getContextForGeneration` are read-only queries. -/
inductive HOp
  | setTopic (topic : Str)
  | setCtaPurpose (purpose : CtaPurpose)
  | start
  | complete
  | addMessage (message : HearingMessage)
  | canGenerateQuery
  | getContextQuery
deriving DecidableEq

/-- The session resulting from one call. -/
def applyOp (s : HearingSession) : HOp → HearingSession
  | .setTopic t => s.setTopic t
  | .setCtaPurpose p => s.setCtaPurpose p
  | .start => s.start
  | .complete => s.complete
  | .addMessage m => s.addMessage m
  | .canGenerateQuery => s
  | .getContextQuery => s

/-- The session resulting from a sequence of calls. -/
def applyOps (s : HearingSession) (ops : List HOp) : HearingSession :=
  ops.foldl applyOp s

/-- `CTA_INSTRUCTIONS` in `prompt-builder.ts` (plain composer). -/
def CTA_INSTRUCTIONS : CtaPurpose → Str
  | .longVideo =>
    str "CTAでは長尺動画・本編・フル動画への誘導を行ってください。「長尺」「本編」「フル」などのワードを必ず含めてください。"
  | .like =>
    str "CTAでは高評価・いいねを促してください。「いいね」「高評価」「グッド」などのワードを必ず含めてください。"
  | .comment =>
    str "CTAではコメントを促してください。「コメント」「感想」「教えて」などのワードを必ず含めてください。"

/-- `ScriptGenerationRequest` from `types/script.ts`. -/
structure ScriptGenerationRequest where
  topic : Str
  ctaPurpose : CtaPurpose
  history : Option (List HearingMessage) := none
deriving DecidableEq

/-- `PromptBuilder.build` in `prompt-builder.ts`. -/
def PromptBuilder.build (request : ScriptGenerationRequest) : Str :=
  str "あなたはYouTube Shorts向けの台本を作成する専門家です。\n\n以下のトピックについて、30秒程度で読み上げられる台本を作成してください。\n\n【トピック】\n"
    ++ request.topic
    ++ str "\n\n【必須セクション】\n以下の3つは必ず含めてください：\n- hook: 視聴者の注意を引く冒頭（フック）\n- body: 価値を提供する本編\n- cta: 行動を促す呼びかけ\n\n【任意セクション】\n必要に応じて以下を追加できます：\n- context: 前提・誰向けか・状況説明\n- proof: 理由・具体例・根拠\n- transition: 話の切り替え・強調\n\n【CTA指示】\n"
    ++ CTA_INSTRUCTIONS request.ctaPurpose
    ++ str "\n\n【制約】\n- 絵文字は絶対に使用しないでください（読み上げ用途のため）\n- 合計文字数は250文字以上400文字以下を目安にしてください\n- 自然な話し言葉で書いてください\n\n【出力形式】\n以下のJSON形式で出力してください。他の文章は一切含めないでください。\n\n\x7b\n  \"hook\": \"フックのテキスト\",\n  \"context\": \"前提のテキスト（任意）\",\n  \"body\": \"本編のテキスト\",\n  \"proof\": \"根拠のテキスト（任意）\",\n  \"transition\": \"切り替えのテキスト（任意）\",\n  \"cta\": \"CTAのテキスト\"\n\x7d\n\n任意セクションを含めない場合は、そのキーを省略してください。"

/-- `CTA_INSTRUCTIONS` of `HearingPromptBuilder`. -/
def hearingCtaInstruction : CtaPurpose → Str
  | .longVideo =>
    str "「長尺」「本編」「フル」のいずれかのワードを含めて、長尺動画への誘導を行ってください。"
  | .like =>
    str "「いいね」「高評価」「グッド」のいずれかのワードを含めて、高評価を促してください。"
  | .comment =>
    str "「コメント」「感想」「教えて」のいずれかのワードを含めて、コメントを促してください。"

/-- The `for (let i = 0; i < history.length; i += 2)` loop body of
`HearingPromptBuilder.formatHearingInfo`: pushes `Q:`/`A:`/blank lines for
each in-bounds pair; an index pair whose answer is out of bounds pushes
nothing. -/
def pairLines : List HearingMessage → List Str
  | question :: answer :: rest =>
    (str "Q: " ++ question.content) :: (str "A: " ++ answer.content)
      :: ([] : Str) :: pairLines rest
  | _ => []

/-- `HearingPromptBuilder.formatHearingInfo`: `lines.join('\n').trim()`. -/
def formatHearingInfo (history : List HearingMessage) : Str :=
  trimStr (joinNL (pairLines history))

/-- The template string of `HearingPromptBuilder.build`, a function of the
topic, the formatted hearing block and the CTA intent. -/
def hearingTemplate (topic : Str) (hearingInfo : Str) (p : CtaPurpose) : Str :=
  str "あなたはYouTube Shorts用の台本を作成する専門家です。\n\n## トピック\n"
    ++ topic
    ++ str "\n\n## ヒアリングで収集した情報\n"
    ++ hearingInfo
    ++ str "\n\n## 台本の構成要素\n以下の構成要素で台本を作成してください：\n\n### 必須要素\n- hook: 冒頭で視聴者の注意を引くフレーズ（最初の1-2秒で興味を引く）\n- body: 本編の内容（価値提供）\n- cta: 行動喚起（"
    ++ hearingCtaInstruction p
    ++ str "）\n\n### 任意要素（必要に応じて含める）\n- context: 前提や状況説明\n- proof: 理由や具体例\n- transition: 話の切り替えや強調\n\n## 制約\n- 絵文字は使用しないでください\n- 全体で250〜400文字に収めてください\n- ヒアリングで収集した情報を必ず反映してください\n\n## 出力形式\n以下のJSON形式で出力してください。必須要素は必ず含め、任意要素は適切な場合のみ含めてください。\n\x7b\n  \"hook\": \"...\",\n  \"context\": \"...\",\n  \"body\": \"...\",\n  \"proof\": \"...\",\n  \"transition\": \"...\",\n  \"cta\": \"...\"\n\x7d"

/-- The message of the error thrown by `HearingPromptBuilder.build` on an
empty transcript. -/
def noTranscriptMsg : Str := str "ヒアリング情報がありません"

/-- `HearingPromptBuilder.build`: the `throw` becomes `.error`. -/
def hearingBuild (context : HearingContext) : Except Str Str :=
  if context.history.isEmpty then .error noTranscriptMsg
  else
    .ok (hearingTemplate context.topic (formatHearingInfo context.history)
      context.ctaPurpose)

/-- `LLMResponse` from `types/llm.ts`. -/
structure LLMResponse where
  script : Option Script := none
  error : Option Str := none
  rawOutput : Str := []

/-- `GenerationResult` from `types/generation.ts`; absent optional fields
are `none`. -/
structure GenerationResult where
  success : Bool
  script : Option Script := none
  errors : Option (List ValidationError) := none
  llmError : Option Str := none
  needsMoreInfo : Option Bool := none
deriving DecidableEq

namespace ScriptGenerator

/-- JS truthiness of an optional string (`undefined` and `''` are falsy). -/
def truthyOptStr : Option Str → Bool
  | none => false
  | some s => !s.isEmpty

/-- The `??` fallback message for a missing-script response. -/
def genFailMsg : Str := str "台本の生成に失敗しました"

/-- The message returned when the `while` loop exits by exhausting retries. -/
def retryLimitMsg : Str := str "リトライ回数の上限に達しました。再度お試しください。"

/-- `ScriptGenerator.buildPrompt`: dialogue-aware composer when a non-empty
history is supplied, plain composer otherwise.  (When the history is
non-empty, `HearingPromptBuilder.build` cannot throw and returns its
template; the `.ok` payload is inlined here.) -/
def buildPrompt (request : ScriptGenerationRequest) : Str :=
  match request.history with
  | some (m :: ms) =>
    hearingTemplate request.topic (formatHearingInfo (m :: ms)) request.ctaPurpose
  | _ => PromptBuilder.build request

/-- `ScriptGenerator.calculateScriptLength`, with `if (script.context)`
modelled as presence of a non-empty string. -/
def optFieldLen : Option Str → Nat
  | none => 0
  | some c => if c.isEmpty then 0 else c.length

/-- `ScriptGenerator.calculateScriptLength`. -/
def calculateScriptLength (script : Script) : Nat :=
  script.hook.length + script.body.length + script.cta.length
    + optFieldLen script.context + optFieldLen script.proof
    + optFieldLen script.transition

/-- The `while (this.retryStrategy.canRetry(attempt))` loop of
`ScriptGenerator.generate`.  `attempt` is the value of the counter when the
loop condition is tested (the in-loop `attempt++` shows up as `attempt + 1`).
The oracle is any deterministic LLM client behavior: a response for each
call index and prompt.  The second component counts the oracle calls made
from this point on. -/
def generateGo (oracle : Nat → Str → LLMResponse) (ctaPurpose : CtaPurpose)
    (prompt : Str) (attempt : Nat) : GenerationResult × Nat :=
  if h : RetryStrategy.canRetry attempt then
    let resp := oracle attempt prompt
    match resp.script with
    | none =>
      ({ success := false, llmError := some (resp.error.getD genFailMsg) }, 1)
    | some script =>
      if truthyOptStr resp.error then
        ({ success := false, llmError := some (resp.error.getD genFailMsg) }, 1)
      else
        let validationResult := validateScript script ctaPurpose
        if validationResult.valid then
          ({ success := true, script := some script }, 1)
        else
          let currentLength := calculateScriptLength script
          let retryDecision :=
            determineRetryAction validationResult.errors currentLength
          if retryDecision.action = .request_more_info then
            ({ success := false, errors := some validationResult.errors,
               needsMoreInfo := some true }, 1)
          else if retryDecision.action = .retry_with_prompt
              ∧ RetryStrategy.canRetry (attempt + 1) then
            let next := generateGo oracle ctaPurpose
              (RetryStrategy.adjustPrompt prompt validationResult.errors
                currentLength)
              (attempt + 1)
            (next.1, next.2 + 1)
          else
            ({ success := false, errors := some validationResult.errors }, 1)
  else
    ({ success := false, llmError := some retryLimitMsg }, 0)
termination_by MAX_RETRIES - attempt
decreasing_by
  simp only [RetryStrategy.canRetry, decide_eq_true_eq] at h
  simp only [MAX_RETRIES] at h ⊢
  omega

/-- `ScriptGenerator.generate`: the attempt counter starts at 0 on every
call. -/
def generate (oracle : Nat → Str → LLMResponse)
    (request : ScriptGenerationRequest) : GenerationResult × Nat :=
  generateGo oracle request.ctaPurpose (buildPrompt request) 0

end ScriptGenerator

/-- Position of a state along the intended forward order
`not_started → in_progress → completed`. -/
def stateRank : HearingState → Nat
  | .not_started => 0
  | .in_progress => 1
  | .completed => 2

/-- A session driven through the intended protocol: set topic and intent,
start, add the transcript, complete. -/
def buildCompletedSession (topic : Str) (purpose : CtaPurpose)
    (messages : List HearingMessage) : HearingSession :=
  (messages.foldl HearingSession.addMessage
    (((HearingSession.init.setTopic topic).setCtaPurpose purpose).start)).complete

/-- Spec-side description of the corrective directive one error entry
contributes to `RetryStrategy.adjustPrompt`: every code owns one directive
except `INVALID_ORDER`, which contributes nothing. -/
def directiveFor (code : ValidationErrorCode) (currentLength : Nat) :
    Option Str :=
  match code with
  | .TOO_SHORT => some (RetryStrategy.tooShortAdjustment currentLength)
  | .TOO_LONG => some (RetryStrategy.tooLongAdjustment currentLength)
  | .CONTAINS_EMOJI => some RetryStrategy.emojiAdjustment
  | .CTA_MISMATCH_LONG_VIDEO => some RetryStrategy.ctaLongVideoAdjustment
  | .CTA_MISMATCH_LIKE => some RetryStrategy.ctaLikeAdjustment
  | .CTA_MISMATCH_COMMENT => some RetryStrategy.ctaCommentAdjustment
  | .MISSING_HOOK => some RetryStrategy.missingHookAdjustment
  | .MISSING_BODY => some RetryStrategy.missingBodyAdjustment
  | .MISSING_CTA => some RetryStrategy.missingCtaAdjustment
  | .INVALID_ORDER => none

/-- Concrete 200-character candidate: structurally fine, CTA keyword
present for `like`, but 50 characters short of the minimum, so validation
yields exactly a `TOO_SHORT` error and the retry planner answers
`retry_with_prompt` (shortfall 50 is within the threshold). -/
def script200 : Script :=
  { hook := List.replicate 100 'a'
  , body := List.replicate 94 'a'
  , cta := str "いいね" ++ List.replicate 3 'a' }

/-- An oracle that always answers with `script200`. -/
def oracleAlways200 : Nat → Str → LLMResponse :=
  fun _ _ => { script := some script200 }

/-- An oracle that always fails with an error message. -/
def oracleBoom : Nat → Str → LLMResponse :=
  fun _ _ => { error := some (str "boom") }

/-- A candidate of measured length exactly `n`: only the hook is non-empty. -/
def scriptOfLen (n : Nat) : Script :=
  { hook := List.replicate n 'a', body := [], cta := [] }

/-- A fully valid candidate for the `like` intent (263 characters, keyword
present). -/
def scriptValid : Script :=
  { hook := List.replicate 120 'a', body := List.replicate 120 'a',
    cta := str "いいね" ++ List.replicate 20 'a' }

/-- A candidate whose hook contains the emoji codepoint U+2705. -/
def scriptEmoji : Script :=
  { hook := ['✅'], body := List.replicate 150 'b',
    cta := str "いいね" ++ List.replicate 110 'c' }

/-! ### Helper lemmas -/

theorem sum_map_length_filter_nonempty (l : List Str) :
    ((l.filter (fun s => !s.isEmpty)).map List.length).sum
      = (l.map List.length).sum := by
  induction l with
  | nil => rfl
  | cons x t ih =>
    by_cases hx : x.isEmpty
    · have hlen : x.length = 0 := by
        cases x with
        | nil => rfl
        | cons a b => simp at hx
      simp [List.filter_cons, hx, hlen, ih]
    · simp [List.filter_cons, hx, ih]

theorem optFieldLen_some (c : Str) :
    ScriptGenerator.optFieldLen (some c) = c.length := by
  by_cases h : c.isEmpty
  · have hc : c = [] := by simpa using h
    simp [ScriptGenerator.optFieldLen, hc]
  · simp [ScriptGenerator.optFieldLen, h]

theorem optFieldLen_none : ScriptGenerator.optFieldLen none = 0 := rfl

theorem foldl_addMessage (s : HearingSession) (ms : List HearingMessage) :
    ms.foldl HearingSession.addMessage s = { s with history := s.history ++ ms } := by
  induction ms generalizing s with
  | nil => cases s; simp
  | cons m t ih => simp [HearingSession.addMessage, ih, List.append_assoc]

theorem code_of_mem_validateStructure {script : Script} {e : ValidationError}
    (h : e ∈ validateStructure script) :
    e.code = .MISSING_HOOK ∨ e.code = .MISSING_BODY ∨ e.code = .MISSING_CTA := by
  simp only [validateStructure, List.mem_append, List.mem_ite_nil_right,
    List.mem_singleton] at h
  rcases h with (⟨_, rfl⟩ | ⟨_, rfl⟩) | ⟨_, rfl⟩ <;> simp

theorem code_of_mem_validateNoEmoji {script : Script} {e : ValidationError}
    (h : e ∈ validateNoEmoji script) : e.code = .CONTAINS_EMOJI := by
  simp only [validateNoEmoji, List.mem_ite_nil_right, List.mem_singleton] at h
  rcases h with ⟨_, rfl⟩; rfl

theorem code_of_mem_validateLength {script : Script} {e : ValidationError}
    (h : e ∈ validateLength script) :
    e.code = .TOO_SHORT ∨ e.code = .TOO_LONG := by
  simp only [validateLength, List.mem_append, List.mem_ite_nil_right,
    List.mem_singleton] at h
  rcases h with ⟨_, rfl⟩ | ⟨_, rfl⟩ <;> simp

theorem code_of_mem_validateCtaPurpose {script : Script} {p : CtaPurpose}
    {e : ValidationError} (h : e ∈ validateCtaPurpose script p) :
    e.code = CTA_ERROR_CODES p := by
  simp only [validateCtaPurpose, List.mem_ite_nil_left, List.mem_singleton] at h
  rcases h with ⟨_, rfl⟩; rfl

theorem mem_validateScript_errors {script : Script} {p : CtaPurpose}
    {e : ValidationError} :
    e ∈ (validateScript script p).errors ↔
      e ∈ validateStructure script ∨ e ∈ validateNoEmoji script
        ∨ e ∈ validateLength script ∨ e ∈ validateCtaPurpose script p := by
  simp [validateScript, List.mem_append, or_assoc]

theorem mem_validateLength_short (script : Script) :
    (⟨.TOO_SHORT, tooShortMsg (totalLength script)⟩ : ValidationError)
      ∈ validateLength script ↔ totalLength script < 250 := by
  simp [validateLength, MIN_LENGTH, MAX_LENGTH]

theorem mem_validateLength_long (script : Script) :
    (⟨.TOO_LONG, tooLongMsg (totalLength script)⟩ : ValidationError)
      ∈ validateLength script ↔ 400 < totalLength script := by
  simp [validateLength, MIN_LENGTH, MAX_LENGTH]

theorem validateLength_eq_nil {script : Script}
    (h1 : 250 ≤ totalLength script) (h2 : totalLength script ≤ 400) :
    validateLength script = [] := by
  simp only [validateLength, MIN_LENGTH, MAX_LENGTH]
  rw [if_neg (by omega), if_neg (by omega)]
  rfl

theorem countP_code_eq_zero {l : List ValidationError} {c : ValidationErrorCode}
    (h : ∀ e ∈ l, e.code ≠ c) : l.countP (fun e => e.code == c) = 0 := by
  rw [List.countP_eq_zero]
  intro e he
  simpa using h e he

theorem countP_short_validateLength (script : Script) :
    (validateLength script).countP (fun e => e.code == .TOO_SHORT)
      = if totalLength script < 250 then 1 else 0 := by
  simp only [validateLength, MIN_LENGTH, MAX_LENGTH, List.countP_append]
  split_ifs with h1 h2 h2 <;> simp_all [List.countP_cons, List.countP_nil]

theorem countP_long_validateLength (script : Script) :
    (validateLength script).countP (fun e => e.code == .TOO_LONG)
      = if 400 < totalLength script then 1 else 0 := by
  simp only [validateLength, MIN_LENGTH, MAX_LENGTH, List.countP_append]
  split_ifs with h1 h2 h2 <;> simp_all [List.countP_cons, List.countP_nil]

/-! ### Claim theorems -/

/-- C10: the explicit field-length sum of
`ScriptGenerator.calculateScriptLength` agrees with the
filter-present/join/length measurement inside the validator
(`totalLength`, used by `validateLength`), so the length the orchestrator
hands to `determineRetryAction` is the count reported in the
`TOO_SHORT`/`TOO_LONG` messages. -/
theorem C10_calculateScriptLength_eq_totalLength (script : Script) :
    ScriptGenerator.calculateScriptLength script = totalLength script := by
  rcases script with ⟨hook, context, body, prf, transition, cta⟩
  simp only [totalLength, allText, presentFields, List.length_flatten,
    sum_map_length_filter_nonempty, ScriptGenerator.calculateScriptLength]
  rcases context with _ | c <;> rcases prf with _ | pr <;>
    rcases transition with _ | tr <;>
      simp [optFieldLen_some, optFieldLen_none] <;> omega

/-- C3 counterexample: the state machine is not strictly forward-only.
On a fresh session, `complete()` jumps from `not_started` directly to
`completed`, and `start()` invoked on a completed session moves it
backward to `in_progress`. -/
theorem C3_counterexample :
    HearingSession.init.state = .not_started
  ∧ HearingSession.init.complete.state = .completed
  ∧ HearingSession.init.complete.start.state = .in_progress :=
  ⟨rfl, rfl, rfl⟩

/-- C3 amended: `start` and `complete` set the state unconditionally, and
every other operation (including the queries) leaves the state unchanged.
Consequently the only backward transition is `start()` invoked in
`completed`, and the only `not_started → completed` jump is `complete()`;
along any call sequence that never invokes `start` on a completed session
the `completed` state is absorbing, and a `not_started` session never
reaches `completed` without a `complete` call. -/
theorem C3_amended :
    (∀ (s : HearingSession) (op : HOp),
        (stateRank (applyOp s op).state < stateRank s.state →
          op = .start ∧ s.state = .completed)
      ∧ (s.state = .not_started → (applyOp s op).state = .completed →
          op = .complete))
  ∧ (∀ (s : HearingSession) (ops : List HOp),
      s.state = .completed → HOp.start ∉ ops →
        (applyOps s ops).state = .completed)
  ∧ (∀ (s : HearingSession) (ops : List HOp),
      s.state = .not_started → HOp.complete ∉ ops →
        stateRank (applyOps s ops).state ≤ 1) := by
  have hstep : ∀ (s : HearingSession) (op : HOp), op ≠ .start → op ≠ .complete →
      (applyOp s op).state = s.state := by
    intro s op h1 h2
    cases op <;> simp_all [applyOp, HearingSession.setTopic,
      HearingSession.setCtaPurpose, HearingSession.addMessage]
  refine ⟨?_, ?_, ?_⟩
  · intro s op
    constructor
    · intro hlt
      cases op <;> cases hs : s.state <;>
        simp_all [applyOp, stateRank, HearingSession.setTopic,
          HearingSession.setCtaPurpose, HearingSession.start,
          HearingSession.complete, HearingSession.addMessage]
    · intro hns hcomp
      cases op <;>
        simp_all [applyOp, HearingSession.setTopic, HearingSession.setCtaPurpose,
          HearingSession.start, HearingSession.complete, HearingSession.addMessage]
  · intro s ops hs hnot
    induction ops generalizing s with
    | nil => simpa [applyOps] using hs
    | cons op t ih =>
      have hop : op ≠ HOp.start := fun h => hnot (by simp [h])
      have hstate : (applyOp s op).state = .completed := by
        by_cases hc : op = .complete
        · simp [hc, applyOp, HearingSession.complete]
        · rw [hstep s op hop hc]; exact hs
      have htail : HOp.start ∉ t := fun hm => hnot (List.mem_cons_of_mem _ hm)
      simpa [applyOps] using ih (applyOp s op) hstate htail
  · intro s ops hs hnot
    have habs : ∀ (s : HearingSession) (ops : List HOp), s.state ≠ .completed →
        HOp.complete ∉ ops → (applyOps s ops).state ≠ .completed := by
      intro s ops
      induction ops generalizing s with
      | nil => intro h _; simpa [applyOps] using h
      | cons op t ih =>
        intro h hnot
        have hop : op ≠ HOp.complete := fun hc => hnot (by simp [hc])
        have hstate : (applyOp s op).state ≠ .completed := by
          by_cases hst : op = .start
          · simp [hst, applyOp, HearingSession.start]
          · rw [hstep s op hst hop]; exact h
        have htail : HOp.complete ∉ t := fun hm => hnot (List.mem_cons_of_mem _ hm)
        simpa [applyOps] using ih (applyOp s op) hstate htail
    have := habs s ops (by simp [hs]) hnot
    cases h : (applyOps s ops).state <;> simp_all [stateRank]

/-- C3 amended, witnessed at a concrete protocol-respecting run: a session
completed through the protocol stays completed across further non-`start`
calls. -/
theorem C3_amended_witness :
    (applyOps HearingSession.init.start.complete
      [HOp.setTopic [], HOp.addMessage ⟨.user, []⟩, HOp.canGenerateQuery]).state
      = .completed :=
  C3_amended.2.1 HearingSession.init.start.complete
    [HOp.setTopic [], HOp.addMessage ⟨.user, []⟩, HOp.canGenerateQuery]
    rfl (by decide)

/-- C6: `canGenerate` answers exactly by state
(`HEARING_NOT_STARTED` / `HEARING_NOT_COMPLETED` / allowed), and
`getContextForGeneration` fails with the precondition error in every
non-completed state while in `completed` it returns the stored topic,
transcript and CTA intent — in particular, for a session driven through
the protocol, exactly the values previously set. -/
theorem C6_hearing_gate :
    (∀ s : HearingSession,
        (s.state = .not_started →
          s.canGenerate = { allowed := false, reason := some .HEARING_NOT_STARTED })
      ∧ (s.state = .in_progress →
          s.canGenerate = { allowed := false, reason := some .HEARING_NOT_COMPLETED })
      ∧ (s.state = .completed → s.canGenerate = { allowed := true })
      ∧ (s.state ≠ .completed →
          s.getContextForGeneration = .error HearingSession.hearingNotCompletedMsg)
      ∧ (s.state = .completed →
          s.getContextForGeneration = .ok ⟨s.topic, s.history, s.ctaPurpose⟩))
  ∧ (∀ (topic : Str) (purpose : CtaPurpose) (ms : List HearingMessage),
      (buildCompletedSession topic purpose ms).getContextForGeneration
        = .ok ⟨topic, ms, purpose⟩) := by
  constructor
  · intro s
    refine ⟨?_, ?_, ?_, ?_, ?_⟩ <;> intro h <;>
      simp [HearingSession.canGenerate, HearingSession.getContextForGeneration, h]
  · intro topic purpose ms
    simp [buildCompletedSession, foldl_addMessage, HearingSession.complete,
      HearingSession.start, HearingSession.setCtaPurpose, HearingSession.setTopic,
      HearingSession.init, HearingSession.getContextForGeneration]

/-- C6 witnessed at concrete sessions in each of the three states. -/
theorem C6_hearing_gate_witness :
    HearingSession.init.canGenerate
        = { allowed := false, reason := some .HEARING_NOT_STARTED }
  ∧ HearingSession.init.start.canGenerate
        = { allowed := false, reason := some .HEARING_NOT_COMPLETED }
  ∧ HearingSession.init.start.complete.canGenerate = { allowed := true }
  ∧ HearingSession.init.start.getContextForGeneration
        = .error HearingSession.hearingNotCompletedMsg
  ∧ (buildCompletedSession (str "t") .like [⟨.assistant, str "q"⟩]).getContextForGeneration
        = .ok ⟨str "t", [⟨.assistant, str "q"⟩], .like⟩ :=
  ⟨(C6_hearing_gate.1 HearingSession.init).1 rfl,
   (C6_hearing_gate.1 HearingSession.init.start).2.1 rfl,
   (C6_hearing_gate.1 HearingSession.init.start.complete).2.2.1 rfl,
   (C6_hearing_gate.1 HearingSession.init.start).2.2.2.1 (by decide),
   C6_hearing_gate.2 (str "t") .like [⟨.assistant, str "q"⟩]⟩

/-- C2: validation measures the script as the character count of the
concatenation of the present fields and accepts exactly counts in
[250, 400]: below-range counts yield exactly one `TOO_SHORT` error whose
message carries the measured count, above-range counts exactly one
`TOO_LONG` error carrying the count, and the outcomes flip exactly at the
249/250 and 400/401 boundaries (the strict iffs below). -/
theorem C2_validateScript_length (script : Script) (p : CtaPurpose) :
    ((⟨.TOO_SHORT, tooShortMsg (totalLength script)⟩ : ValidationError)
        ∈ (validateScript script p).errors ↔ totalLength script < 250)
  ∧ ((⟨.TOO_LONG, tooLongMsg (totalLength script)⟩ : ValidationError)
        ∈ (validateScript script p).errors ↔ 400 < totalLength script)
  ∧ (validateScript script p).errors.countP (fun e => e.code == .TOO_SHORT)
      = (if totalLength script < 250 then 1 else 0)
  ∧ (validateScript script p).errors.countP (fun e => e.code == .TOO_LONG)
      = (if 400 < totalLength script then 1 else 0)
  ∧ (250 ≤ totalLength script ∧ totalLength script ≤ 400 ↔
      ∀ e ∈ (validateScript script p).errors,
        e.code ≠ .TOO_SHORT ∧ e.code ≠ .TOO_LONG) := by
  have hss : ∀ e ∈ validateStructure script,
      e.code ≠ ValidationErrorCode.TOO_SHORT ∧ e.code ≠ ValidationErrorCode.TOO_LONG := by
    intro e he
    rcases code_of_mem_validateStructure he with h' | h' | h' <;> simp [h']
  have hse : ∀ e ∈ validateNoEmoji script,
      e.code ≠ ValidationErrorCode.TOO_SHORT ∧ e.code ≠ ValidationErrorCode.TOO_LONG := by
    intro e he
    simp [code_of_mem_validateNoEmoji he]
  have hctacode : ∀ e ∈ validateCtaPurpose script p,
      e.code ≠ ValidationErrorCode.TOO_SHORT ∧ e.code ≠ ValidationErrorCode.TOO_LONG := by
    intro e he
    rw [code_of_mem_validateCtaPurpose he]
    cases p <;> simp [CTA_ERROR_CODES]
  have hmem_short : (⟨.TOO_SHORT, tooShortMsg (totalLength script)⟩ : ValidationError)
      ∈ (validateScript script p).errors ↔ totalLength script < 250 := by
    rw [mem_validateScript_errors]
    constructor
    · rintro (h | h | h | h)
      · exact absurd rfl (hss _ h).1
      · exact absurd rfl (hse _ h).1
      · exact (mem_validateLength_short script).mp h
      · exact absurd rfl (hctacode _ h).1
    · intro h
      exact Or.inr (Or.inr (Or.inl ((mem_validateLength_short script).mpr h)))
  have hmem_long : (⟨.TOO_LONG, tooLongMsg (totalLength script)⟩ : ValidationError)
      ∈ (validateScript script p).errors ↔ 400 < totalLength script := by
    rw [mem_validateScript_errors]
    constructor
    · rintro (h | h | h | h)
      · exact absurd rfl (hss _ h).2
      · exact absurd rfl (hse _ h).2
      · exact (mem_validateLength_long script).mp h
      · exact absurd rfl (hctacode _ h).2
    · intro h
      exact Or.inr (Or.inr (Or.inl ((mem_validateLength_long script).mpr h)))
  have herrs : (validateScript script p).errors
      = validateStructure script ++ validateNoEmoji script
        ++ validateLength script ++ validateCtaPurpose script p := rfl
  refine ⟨hmem_short, hmem_long, ?_, ?_, ?_⟩
  · rw [herrs]
    simp only [List.countP_append]
    rw [countP_code_eq_zero (fun e he => (hss e he).1),
      countP_code_eq_zero (fun e he => (hse e he).1),
      countP_code_eq_zero (fun e he => (hctacode e he).1),
      countP_short_validateLength]
    omega
  · rw [herrs]
    simp only [List.countP_append]
    rw [countP_code_eq_zero (fun e he => (hss e he).2),
      countP_code_eq_zero (fun e he => (hse e he).2),
      countP_code_eq_zero (fun e he => (hctacode e he).2),
      countP_long_validateLength]
    omega
  · constructor
    · rintro ⟨h1, h2⟩ e he
      rcases mem_validateScript_errors.mp he with h | h | h | h
      · exact hss e h
      · exact hse e h
      · rw [validateLength_eq_nil h1 h2] at h
        exact absurd h (List.not_mem_nil e)
      · exact hctacode e h
    · intro hall
      constructor
      · by_contra hlt
        have hmem := hmem_short.mpr (by omega)
        exact (hall _ hmem).1 rfl
      · by_contra hgt
        have hmem := hmem_long.mpr (by omega)
        exact (hall _ hmem).2 rfl

theorem mem_validateStructure_hook (script : Script) :
    (⟨.MISSING_HOOK, missingHookMsg⟩ : ValidationError) ∈ validateStructure script
      ↔ isBlankStr script.hook := by
  simp [validateStructure]

theorem mem_validateStructure_body (script : Script) :
    (⟨.MISSING_BODY, missingBodyMsg⟩ : ValidationError) ∈ validateStructure script
      ↔ isBlankStr script.body := by
  simp [validateStructure]

theorem mem_validateStructure_cta (script : Script) :
    (⟨.MISSING_CTA, missingCtaMsg⟩ : ValidationError) ∈ validateStructure script
      ↔ isBlankStr script.cta := by
  simp [validateStructure]

theorem mem_validateNoEmoji_iff (script : Script) :
    (⟨.CONTAINS_EMOJI, emojiMsg⟩ : ValidationError) ∈ validateNoEmoji script
      ↔ (allText script).any isEmojiChar := by
  simp [validateNoEmoji]

theorem mem_validateCtaPurpose_iff (script : Script) (p : CtaPurpose) :
    (⟨CTA_ERROR_CODES p, ctaMismatchMsg p⟩ : ValidationError)
      ∈ validateCtaPurpose script p
      ↔ ¬ (CTA_KEYWORDS p).any (fun k => containsSub script.cta k) := by
  simp [validateCtaPurpose]

/-- C7: `validateScript` runs all four checks unconditionally and
accumulates every failure: membership of each check's error in the final
list is equivalent to that check's own failure condition, independently of
the other checks (so errors of different checks coexist); `valid` holds iff
the accumulated list is empty; and at most one `CONTAINS_EMOJI` error is
emitted no matter how many emoji the concatenation contains. -/
theorem C7_validateScript_accumulation (script : Script) (p : CtaPurpose) :
    ((validateScript script p).valid = true ↔ (validateScript script p).errors = [])
  ∧ (validateScript script p).errors.countP (fun e => e.code == .CONTAINS_EMOJI) ≤ 1
  ∧ ((⟨.MISSING_HOOK, missingHookMsg⟩ : ValidationError)
      ∈ (validateScript script p).errors ↔ isBlankStr script.hook)
  ∧ ((⟨.MISSING_BODY, missingBodyMsg⟩ : ValidationError)
      ∈ (validateScript script p).errors ↔ isBlankStr script.body)
  ∧ ((⟨.MISSING_CTA, missingCtaMsg⟩ : ValidationError)
      ∈ (validateScript script p).errors ↔ isBlankStr script.cta)
  ∧ ((⟨.CONTAINS_EMOJI, emojiMsg⟩ : ValidationError)
      ∈ (validateScript script p).errors ↔ (allText script).any isEmojiChar)
  ∧ ((⟨CTA_ERROR_CODES p, ctaMismatchMsg p⟩ : ValidationError)
      ∈ (validateScript script p).errors
      ↔ ¬ (CTA_KEYWORDS p).any (fun k => containsSub script.cta k)) := by
  have hcta_ne : ∀ c : ValidationErrorCode,
      c = .MISSING_HOOK ∨ c = .MISSING_BODY ∨ c = .MISSING_CTA
        ∨ c = .CONTAINS_EMOJI → CTA_ERROR_CODES p ≠ c := by
    rintro c (rfl | rfl | rfl | rfl) <;> cases p <;> simp [CTA_ERROR_CODES]
  refine ⟨?_, ?_, ?_, ?_, ?_, ?_, ?_⟩
  · simp [validateScript, List.isEmpty_iff]
  · have herrs : (validateScript script p).errors
        = validateStructure script ++ validateNoEmoji script
          ++ validateLength script ++ validateCtaPurpose script p := rfl
    rw [herrs]
    simp only [List.countP_append]
    have hz1 : (validateStructure script).countP
        (fun e => e.code == ValidationErrorCode.CONTAINS_EMOJI) = 0 :=
      countP_code_eq_zero (fun e he => by
        rcases code_of_mem_validateStructure he with h' | h' | h' <;> simp [h'])
    have hz2 : (validateLength script).countP
        (fun e => e.code == ValidationErrorCode.CONTAINS_EMOJI) = 0 :=
      countP_code_eq_zero (fun e he => by
        rcases code_of_mem_validateLength he with h' | h' <;> simp [h'])
    have hz3 : (validateCtaPurpose script p).countP
        (fun e => e.code == ValidationErrorCode.CONTAINS_EMOJI) = 0 :=
      countP_code_eq_zero (fun e he => by
        rw [code_of_mem_validateCtaPurpose he]
        exact hcta_ne _ (Or.inr (Or.inr (Or.inr rfl))))
    have hle : (validateNoEmoji script).countP
        (fun e => e.code == ValidationErrorCode.CONTAINS_EMOJI) ≤ 1 := by
      simp only [validateNoEmoji]
      split_ifs <;> simp [List.countP_cons, List.countP_nil]
    omega
  · rw [mem_validateScript_errors]
    constructor
    · rintro (h | h | h | h)
      · exact (mem_validateStructure_hook script).mp h
      · exact absurd (code_of_mem_validateNoEmoji h) (by simp)
      · rcases code_of_mem_validateLength h with h' | h' <;> simp at h'
      · exact absurd (code_of_mem_validateCtaPurpose h)
          (Ne.symm (hcta_ne _ (Or.inl rfl)))
    · intro h
      exact Or.inl ((mem_validateStructure_hook script).mpr h)
  · rw [mem_validateScript_errors]
    constructor
    · rintro (h | h | h | h)
      · exact (mem_validateStructure_body script).mp h
      · exact absurd (code_of_mem_validateNoEmoji h) (by simp)
      · rcases code_of_mem_validateLength h with h' | h' <;> simp at h'
      · exact absurd (code_of_mem_validateCtaPurpose h)
          (Ne.symm (hcta_ne _ (Or.inr (Or.inl rfl))))
    · intro h
      exact Or.inl ((mem_validateStructure_body script).mpr h)
  · rw [mem_validateScript_errors]
    constructor
    · rintro (h | h | h | h)
      · exact (mem_validateStructure_cta script).mp h
      · exact absurd (code_of_mem_validateNoEmoji h) (by simp)
      · rcases code_of_mem_validateLength h with h' | h' <;> simp at h'
      · exact absurd (code_of_mem_validateCtaPurpose h)
          (Ne.symm (hcta_ne _ (Or.inr (Or.inr (Or.inl rfl)))))
    · intro h
      exact Or.inl ((mem_validateStructure_cta script).mpr h)
  · rw [mem_validateScript_errors]
    constructor
    · rintro (h | h | h | h)
      · rcases code_of_mem_validateStructure h with h' | h' | h' <;> simp at h'
      · exact (mem_validateNoEmoji_iff script).mp h
      · rcases code_of_mem_validateLength h with h' | h' <;> simp at h'
      · exact absurd (code_of_mem_validateCtaPurpose h)
          (Ne.symm (hcta_ne _ (Or.inr (Or.inr (Or.inr rfl)))))
    · intro h
      exact Or.inr (Or.inl ((mem_validateNoEmoji_iff script).mpr h))
  · rw [mem_validateScript_errors]
    constructor
    · rintro (h | h | h | h)
      · rcases code_of_mem_validateStructure h with h' | h' | h' <;>
          exact absurd h' (hcta_ne _ (by simp [h']))
      · exact absurd (code_of_mem_validateNoEmoji h)
          (hcta_ne _ (Or.inr (Or.inr (Or.inr rfl))))
      · rcases code_of_mem_validateLength h with h' | h' <;>
          · cases p <;> simp [CTA_ERROR_CODES] at h'
      · exact (mem_validateCtaPurpose_iff script p).mp h
    · intro h
      exact Or.inr (Or.inr (Or.inr ((mem_validateCtaPurpose_iff script p).mpr h)))

/-- C1: `determineRetryAction` decides by priority.  A `TOO_SHORT` error —
even with other codes in the list — yields shortfall `250 − length`, with
`retry_with_prompt` iff the shortfall is at most 50 and
`request_more_info` otherwise; else a `TOO_LONG` error yields excess
`length − 400` with the same 50 threshold; else any code in the retryable
set (emoji, CTA mismatches, missing fields, malformed order) yields
`retry_with_prompt` without shortfall/excess; else `no_retry`. -/
theorem C1_determineRetryAction (errors : List ValidationError) (len : Nat) :
    ((∃ e ∈ errors, e.code = .TOO_SHORT) →
      determineRetryAction errors len =
        if (250 : Int) - (len : Int) ≤ 50 then
          { action := .retry_with_prompt, shortfall := some ((250 : Int) - (len : Int)) }
        else
          { action := .request_more_info, shortfall := some ((250 : Int) - (len : Int)) })
  ∧ ((∀ e ∈ errors, e.code ≠ .TOO_SHORT) → (∃ e ∈ errors, e.code = .TOO_LONG) →
      determineRetryAction errors len =
        if (len : Int) - 400 ≤ 50 then
          { action := .retry_with_prompt, excess := some ((len : Int) - 400) }
        else
          { action := .request_more_info, excess := some ((len : Int) - 400) })
  ∧ ((∀ e ∈ errors, e.code ≠ .TOO_SHORT ∧ e.code ≠ .TOO_LONG) →
      (∃ e ∈ errors, e.code ∈ retryableErrors) →
      determineRetryAction errors len = { action := .retry_with_prompt })
  ∧ ((∀ e ∈ errors, e.code ≠ .TOO_SHORT ∧ e.code ≠ .TOO_LONG
        ∧ e.code ∉ retryableErrors) →
      determineRetryAction errors len = { action := .no_retry }) := by
  refine ⟨?_, ?_, ?_, ?_⟩
  · rintro ⟨e, he, hc⟩
    have hfind : (errors.find? (fun e => e.code == ValidationErrorCode.TOO_SHORT)).isSome :=
      List.find?_isSome.mpr ⟨e, he, by simp [hc]⟩
    obtain ⟨f, hf⟩ := Option.isSome_iff_exists.mp hfind
    unfold determineRetryAction
    rw [hf]
    simp [MIN_CHARS, SHORTFALL_THRESHOLD_FOR_RETRY]
  · intro hns
    rintro ⟨e, he, hc⟩
    have hnone : errors.find? (fun e => e.code == ValidationErrorCode.TOO_SHORT) = none :=
      List.find?_eq_none.mpr (fun x hx => by simp [hns x hx])
    have hfind : (errors.find? (fun e => e.code == ValidationErrorCode.TOO_LONG)).isSome :=
      List.find?_isSome.mpr ⟨e, he, by simp [hc]⟩
    obtain ⟨f, hf⟩ := Option.isSome_iff_exists.mp hfind
    unfold determineRetryAction
    rw [hnone, hf]
    simp [MAX_CHARS, EXCESS_THRESHOLD_FOR_RETRY]
  · intro hall
    rintro ⟨e, he, hc⟩
    have hnone1 : errors.find? (fun e => e.code == ValidationErrorCode.TOO_SHORT) = none :=
      List.find?_eq_none.mpr (fun x hx => by simp [(hall x hx).1])
    have hnone2 : errors.find? (fun e => e.code == ValidationErrorCode.TOO_LONG) = none :=
      List.find?_eq_none.mpr (fun x hx => by simp [(hall x hx).2])
    have hany : errors.any (fun e => retryableErrors.contains e.code) = true :=
      List.any_eq_true.mpr ⟨e, he,
        List.contains_iff_exists_mem_beq.mpr ⟨e.code, hc, by simp⟩⟩
    unfold determineRetryAction
    rw [hnone1, hnone2, if_pos hany]
  · intro hall
    have hnone1 : errors.find? (fun e => e.code == ValidationErrorCode.TOO_SHORT) = none :=
      List.find?_eq_none.mpr (fun x hx => by simp [(hall x hx).1])
    have hnone2 : errors.find? (fun e => e.code == ValidationErrorCode.TOO_LONG) = none :=
      List.find?_eq_none.mpr (fun x hx => by simp [(hall x hx).2.1])
    have hany : errors.any (fun e => retryableErrors.contains e.code) = false := by
      rw [List.any_eq_false]
      intro x hx
      simpa using (hall x hx).2.2
    have hcond : ¬ ((errors.any fun e => retryableErrors.contains e.code) = true) := by
      rw [hany]
      simp
    unfold determineRetryAction
    rw [hnone1, hnone2, if_neg hcond]

/-- C1 witnessed at the spot checks given in the spec and one input per
remaining branch. -/
theorem C1_determineRetryAction_witness :
    determineRetryAction [⟨.TOO_SHORT, []⟩] 242
        = { action := .retry_with_prompt, shortfall := some 8 }
  ∧ determineRetryAction [⟨.TOO_SHORT, []⟩] 180
        = { action := .request_more_info, shortfall := some 70 }
  ∧ determineRetryAction [⟨.TOO_LONG, []⟩] 415
        = { action := .retry_with_prompt, excess := some 15 }
  ∧ determineRetryAction [⟨.CONTAINS_EMOJI, []⟩] 300
        = { action := .retry_with_prompt }
  ∧ determineRetryAction [] 300 = { action := .no_retry } := by
  refine ⟨?_, ?_, ?_, ?_, ?_⟩
  · have h := (C1_determineRetryAction [⟨.TOO_SHORT, []⟩] 242).1
      ⟨⟨.TOO_SHORT, []⟩, by simp, rfl⟩
    simpa using h
  · have h := (C1_determineRetryAction [⟨.TOO_SHORT, []⟩] 180).1
      ⟨⟨.TOO_SHORT, []⟩, by simp, rfl⟩
    simpa using h
  · have h := (C1_determineRetryAction [⟨.TOO_LONG, []⟩] 415).2.1
      (by decide) ⟨⟨.TOO_LONG, []⟩, by simp, rfl⟩
    simpa using h
  · exact (C1_determineRetryAction [⟨.CONTAINS_EMOJI, []⟩] 300).2.2.1
      (by decide) ⟨⟨.CONTAINS_EMOJI, []⟩, by simp, by decide⟩
  · exact (C1_determineRetryAction [] 300).2.2.2 (by simp)

theorem pairTwoInduction {α : Type} {P : List α → Prop} (h0 : P [])
    (h1 : ∀ x, P [x]) (h2 : ∀ x y t, P t → P (x :: y :: t)) :
    ∀ l : List α, P l
  | [] => h0
  | [x] => h1 x
  | x :: y :: t => h2 x y t (pairTwoInduction h0 h1 h2 t)

theorem pairLines_odd_dropLast (h : List HearingMessage)
    (hodd : h.length % 2 = 1) : pairLines h = pairLines h.dropLast := by
  induction h using pairTwoInduction with
  | h0 => simp at hodd
  | h1 x => rfl
  | h2 x y t ih =>
    have ht : t.length % 2 = 1 := by
      simp only [List.length_cons] at hodd
      omega
    have htne : t ≠ [] := by
      intro hnil
      rw [hnil] at ht
      simp at ht
    rcases t with _ | ⟨z, zs⟩
    · exact absurd rfl htne
    · simp only [pairLines, List.dropLast_cons₂]
      rw [ih ht]

/-- C8: the dialogue-aware composer fails on an empty transcript; on a
non-empty transcript it builds the fixed template around the formatted Q/A
block, which pairs entries two at a time from index 0; an odd-length
transcript formats identically to the transcript without its dangling last
entry, so the built prompt carries no trace of that entry. -/
theorem C8_hearingBuild :
    (∀ (topic : Str) (p : CtaPurpose),
        hearingBuild ⟨topic, [], p⟩ = .error noTranscriptMsg)
  ∧ (∀ (topic : Str) (p : CtaPurpose) (h : List HearingMessage), h ≠ [] →
        hearingBuild ⟨topic, h, p⟩
          = .ok (hearingTemplate topic (formatHearingInfo h) p))
  ∧ (∀ h : List HearingMessage, h.length % 2 = 1 →
        formatHearingInfo h = formatHearingInfo h.dropLast)
  ∧ (∀ (topic : Str) (p : CtaPurpose) (h : List HearingMessage),
        h.length % 2 = 1 → h.dropLast ≠ [] →
        hearingBuild ⟨topic, h, p⟩ = hearingBuild ⟨topic, h.dropLast, p⟩) := by
  have hbuild : ∀ (topic : Str) (p : CtaPurpose) (h : List HearingMessage),
      h ≠ [] → hearingBuild ⟨topic, h, p⟩
        = .ok (hearingTemplate topic (formatHearingInfo h) p) := by
    intro topic p h hne
    simp [hearingBuild, List.isEmpty_iff, hne]
  have hfmt : ∀ h : List HearingMessage, h.length % 2 = 1 →
      formatHearingInfo h = formatHearingInfo h.dropLast := by
    intro h hodd
    simp only [formatHearingInfo, pairLines_odd_dropLast h hodd]
  refine ⟨?_, hbuild, hfmt, ?_⟩
  · intro topic p
    simp [hearingBuild]
  · intro topic p h hodd hdne
    have hne : h ≠ [] := by
      intro hnil
      rw [hnil] at hodd
      simp at hodd
    rw [hbuild topic p h hne, hbuild topic p h.dropLast hdne, hfmt h hodd]

/-- C8 witnessed on a concrete three-entry transcript: the built prompt is
identical to the one built from the transcript without its unanswered
final entry. -/
theorem C8_hearingBuild_witness :
    hearingBuild ⟨str "t",
        [⟨.assistant, str "q1"⟩, ⟨.user, str "a1"⟩, ⟨.assistant, str "q2"⟩], .like⟩
      = hearingBuild ⟨str "t", [⟨.assistant, str "q1"⟩, ⟨.user, str "a1"⟩], .like⟩ := by
  have h := C8_hearingBuild.2.2.2 (str "t") .like
    [⟨.assistant, str "q1"⟩, ⟨.user, str "a1"⟩, ⟨.assistant, str "q2"⟩]
    (by decide) (by decide)
  simpa using h

theorem canRetry_eq_true {attempt : Nat} (h : attempt < MAX_RETRIES) :
    RetryStrategy.canRetry attempt = true := by
  simpa [RetryStrategy.canRetry] using h

theorem canRetry_eq_false {attempt : Nat} (h : ¬ attempt < MAX_RETRIES) :
    ¬ RetryStrategy.canRetry attempt = true := by
  simpa [RetryStrategy.canRetry] using h

theorem generateGo_stop (oracle : Nat → Str → LLMResponse) (p : CtaPurpose)
    (prompt : Str) (attempt : Nat) (h : ¬ attempt < MAX_RETRIES) :
    ScriptGenerator.generateGo oracle p prompt attempt
      = ({ success := false, llmError := some ScriptGenerator.retryLimitMsg }, 0) := by
  unfold ScriptGenerator.generateGo
  rw [dif_neg (canRetry_eq_false h)]

theorem generateGo_oracle_fail_none (oracle : Nat → Str → LLMResponse)
    (p : CtaPurpose) (prompt : Str) (attempt : Nat)
    (h : attempt < MAX_RETRIES)
    (hs : (oracle attempt prompt).script = none) :
    ScriptGenerator.generateGo oracle p prompt attempt
      = ({ success := false,
           llmError := some ((oracle attempt prompt).error.getD
             ScriptGenerator.genFailMsg) }, 1) := by
  unfold ScriptGenerator.generateGo
  rw [dif_pos (canRetry_eq_true h)]
  simp only [hs]

theorem generateGo_oracle_fail_err (oracle : Nat → Str → LLMResponse)
    (p : CtaPurpose) (prompt : Str) (attempt : Nat) (s : Script)
    (h : attempt < MAX_RETRIES)
    (hs : (oracle attempt prompt).script = some s)
    (he : ScriptGenerator.truthyOptStr (oracle attempt prompt).error = true) :
    ScriptGenerator.generateGo oracle p prompt attempt
      = ({ success := false,
           llmError := some ((oracle attempt prompt).error.getD
             ScriptGenerator.genFailMsg) }, 1) := by
  unfold ScriptGenerator.generateGo
  rw [dif_pos (canRetry_eq_true h)]
  simp only [hs, he, if_true]

theorem generateGo_success (oracle : Nat → Str → LLMResponse)
    (p : CtaPurpose) (prompt : Str) (attempt : Nat) (s : Script)
    (h : attempt < MAX_RETRIES)
    (hs : (oracle attempt prompt).script = some s)
    (he : ScriptGenerator.truthyOptStr (oracle attempt prompt).error = false)
    (hv : (validateScript s p).valid = true) :
    ScriptGenerator.generateGo oracle p prompt attempt
      = ({ success := true, script := some s }, 1) := by
  unfold ScriptGenerator.generateGo
  rw [dif_pos (canRetry_eq_true h)]
  simp only [hs, he, hv, Bool.false_eq_true, if_false, if_true]

theorem generateGo_more_info (oracle : Nat → Str → LLMResponse)
    (p : CtaPurpose) (prompt : Str) (attempt : Nat) (s : Script)
    (h : attempt < MAX_RETRIES)
    (hs : (oracle attempt prompt).script = some s)
    (he : ScriptGenerator.truthyOptStr (oracle attempt prompt).error = false)
    (hv : (validateScript s p).valid = false)
    (ha : (determineRetryAction (validateScript s p).errors
        (ScriptGenerator.calculateScriptLength s)).action = .request_more_info) :
    ScriptGenerator.generateGo oracle p prompt attempt
      = ({ success := false, errors := some (validateScript s p).errors,
           needsMoreInfo := some true }, 1) := by
  unfold ScriptGenerator.generateGo
  rw [dif_pos (canRetry_eq_true h)]
  simp only [hs, he, hv, Bool.false_eq_true, if_false, ha, if_true]

theorem generateGo_continue (oracle : Nat → Str → LLMResponse)
    (p : CtaPurpose) (prompt : Str) (attempt : Nat) (s : Script)
    (h : attempt < MAX_RETRIES)
    (hs : (oracle attempt prompt).script = some s)
    (he : ScriptGenerator.truthyOptStr (oracle attempt prompt).error = false)
    (hv : (validateScript s p).valid = false)
    (ha : (determineRetryAction (validateScript s p).errors
        (ScriptGenerator.calculateScriptLength s)).action = .retry_with_prompt)
    (h2 : attempt + 1 < MAX_RETRIES) :
    ScriptGenerator.generateGo oracle p prompt attempt
      = (let next := ScriptGenerator.generateGo oracle p
          (RetryStrategy.adjustPrompt prompt (validateScript s p).errors
            (ScriptGenerator.calculateScriptLength s)) (attempt + 1)
         (next.1, next.2 + 1)) := by
  conv_lhs => unfold ScriptGenerator.generateGo
  rw [dif_pos (canRetry_eq_true h)]
  have hne : ¬ ((determineRetryAction (validateScript s p).errors
      (ScriptGenerator.calculateScriptLength s)).action = RetryAction.request_more_info) := by
    rw [ha]
    simp
  have hand : (determineRetryAction (validateScript s p).errors
        (ScriptGenerator.calculateScriptLength s)).action = RetryAction.retry_with_prompt
      ∧ RetryStrategy.canRetry (attempt + 1) = true :=
    ⟨ha, canRetry_eq_true h2⟩
  simp only [hs, he, hv, Bool.false_eq_true, if_false, if_neg hne, if_pos hand]

theorem generateGo_exhausted (oracle : Nat → Str → LLMResponse)
    (p : CtaPurpose) (prompt : Str) (attempt : Nat) (s : Script)
    (h : attempt < MAX_RETRIES)
    (hs : (oracle attempt prompt).script = some s)
    (he : ScriptGenerator.truthyOptStr (oracle attempt prompt).error = false)
    (hv : (validateScript s p).valid = false)
    (hne : (determineRetryAction (validateScript s p).errors
        (ScriptGenerator.calculateScriptLength s)).action ≠ .request_more_info)
    (hnot : ¬ ((determineRetryAction (validateScript s p).errors
        (ScriptGenerator.calculateScriptLength s)).action = .retry_with_prompt
      ∧ RetryStrategy.canRetry (attempt + 1) = true)) :
    ScriptGenerator.generateGo oracle p prompt attempt
      = ({ success := false, errors := some (validateScript s p).errors }, 1) := by
  unfold ScriptGenerator.generateGo
  rw [dif_pos (canRetry_eq_true h)]
  simp only [hs, he, hv, Bool.false_eq_true, if_false, if_neg hne, if_neg hnot]

theorem generateGo_count_le (oracle : Nat → Str → LLMResponse) (p : CtaPurpose) :
    ∀ (n : Nat) (prompt : Str) (attempt : Nat), MAX_RETRIES - attempt ≤ n →
      (ScriptGenerator.generateGo oracle p prompt attempt).2
        ≤ MAX_RETRIES - attempt := by
  intro n
  induction n with
  | zero =>
    intro prompt attempt hle
    rw [generateGo_stop oracle p prompt attempt (by omega)]
    simp
  | succ k ih =>
    intro prompt attempt hle
    by_cases hlt : attempt < MAX_RETRIES
    · rcases hscript : (oracle attempt prompt).script with _ | s
      · rw [generateGo_oracle_fail_none oracle p prompt attempt hlt hscript]
        omega
      · by_cases herr : ScriptGenerator.truthyOptStr (oracle attempt prompt).error = true
        · rw [generateGo_oracle_fail_err oracle p prompt attempt s hlt hscript herr]
          omega
        · rw [Bool.not_eq_true] at herr
          by_cases hv : (validateScript s p).valid = true
          · rw [generateGo_success oracle p prompt attempt s hlt hscript herr hv]
            omega
          · rw [Bool.not_eq_true] at hv
            rcases haction : (determineRetryAction (validateScript s p).errors
                (ScriptGenerator.calculateScriptLength s)).action with _ | _ | _
            · by_cases h2 : attempt + 1 < MAX_RETRIES
              · rw [generateGo_continue oracle p prompt attempt s hlt hscript herr hv haction h2]
                have hnext := ih (RetryStrategy.adjustPrompt prompt
                  (validateScript s p).errors
                  (ScriptGenerator.calculateScriptLength s)) (attempt + 1) (by omega)
                simp only []
                omega
              · rw [generateGo_exhausted oracle p prompt attempt s hlt hscript herr hv
                  (by rw [haction]; simp)
                  (by rintro ⟨_, hc⟩; exact h2 (by simpa [RetryStrategy.canRetry] using hc))]
                omega
            · rw [generateGo_more_info oracle p prompt attempt s hlt hscript herr hv haction]
              omega
            · rw [generateGo_exhausted oracle p prompt attempt s hlt hscript herr hv
                (by rw [haction]; simp) (by rintro ⟨hc, _⟩; rw [haction] at hc; cases hc)]
              omega
    · rw [generateGo_stop oracle p prompt attempt hlt]
      simp

/-- C4: for every oracle behavior the orchestrator makes at most
`MAX_ATTEMPTS = 3` oracle calls in one `generate` call (the attempt counter
starts at 0 on every call, never carried over — second conjunct), and when
the third and last allowed attempt returns a candidate that is invalid with
a `retry_with_prompt` decision, the call terminates with `success = false`
carrying the validation errors and with no `needsMoreInfo`. -/
theorem C4_generate_bounded :
    (∀ (oracle : Nat → Str → LLMResponse) (request : ScriptGenerationRequest),
        (ScriptGenerator.generate oracle request).2 ≤ 3)
  ∧ (∀ (oracle : Nat → Str → LLMResponse) (request : ScriptGenerationRequest),
        ScriptGenerator.generate oracle request
          = ScriptGenerator.generateGo oracle request.ctaPurpose
              (ScriptGenerator.buildPrompt request) 0)
  ∧ (∀ (oracle : Nat → Str → LLMResponse) (p : CtaPurpose) (prompt : Str)
        (s : Script),
        (oracle 2 prompt).script = some s →
        (oracle 2 prompt).error = none →
        (validateScript s p).valid = false →
        (determineRetryAction (validateScript s p).errors
            (ScriptGenerator.calculateScriptLength s)).action = .retry_with_prompt →
        ScriptGenerator.generateGo oracle p prompt 2
          = ({ success := false, errors := some (validateScript s p).errors }, 1)) := by
  refine ⟨?_, ?_, ?_⟩
  · intro oracle request
    have h := generateGo_count_le oracle request.ctaPurpose MAX_RETRIES
      (ScriptGenerator.buildPrompt request) 0 (by omega)
    simpa [ScriptGenerator.generate, MAX_RETRIES] using h
  · intro oracle request
    rfl
  · intro oracle p prompt s hs he hv ha
    refine generateGo_exhausted oracle p prompt 2 s (by decide) hs ?_ hv ?_ ?_
    · rw [he]; rfl
    · rw [ha]; simp
    · rintro ⟨_, hc⟩
      simp [RetryStrategy.canRetry, MAX_RETRIES] at hc

set_option maxRecDepth 4000 in
/-- C4 witnessed: an oracle that always returns the same retryable-invalid
candidate is called exactly 3 times and the run ends with the validation
errors and no `needsMoreInfo`. -/
theorem C4_generate_bounded_witness :
    (ScriptGenerator.generate oracleAlways200 { topic := [], ctaPurpose := .like }).2 ≤ 3
  ∧ ScriptGenerator.generateGo oracleAlways200 .like [] 2
      = ({ success := false, errors := some [⟨.TOO_SHORT, tooShortMsg 200⟩] }, 1) := by
  constructor
  · exact C4_generate_bounded.1 oracleAlways200 { topic := [], ctaPurpose := .like }
  · have h := C4_generate_bounded.2.2 oracleAlways200 .like [] script200
      rfl rfl (by decide) (by decide)
    have h2 : (validateScript script200 .like).errors
        = [⟨.TOO_SHORT, tooShortMsg 200⟩] := by decide
    rw [h, h2]

/-- C5: whenever the oracle reports a failure (a non-empty error message,
or a response with no script), `generate` terminates from that attempt
immediately: exactly this one oracle call is consumed (count 1 — no retry
decision, no further call), `success` is false, `llmError` carries the
failure message (or the fixed fallback message when no message is given),
and the `errors` field stays unpopulated. -/
theorem C5_oracle_failure (oracle : Nat → Str → LLMResponse) (p : CtaPurpose)
    (prompt : Str) (attempt : Nat)
    (h : attempt < MAX_RETRIES)
    (hfail : (oracle attempt prompt).script = none
      ∨ ∃ e, (oracle attempt prompt).error = some e ∧ e ≠ []) :
    ScriptGenerator.generateGo oracle p prompt attempt
      = ({ success := false,
           llmError := some ((oracle attempt prompt).error.getD
             ScriptGenerator.genFailMsg) }, 1) := by
  rcases hfail with hnone | ⟨e, he, hne⟩
  · exact generateGo_oracle_fail_none oracle p prompt attempt h hnone
  · rcases hscript : (oracle attempt prompt).script with _ | s
    · exact generateGo_oracle_fail_none oracle p prompt attempt h hscript
    · refine generateGo_oracle_fail_err oracle p prompt attempt s h hscript ?_
      rw [he]
      simpa [ScriptGenerator.truthyOptStr, List.isEmpty_iff] using hne

/-- C5 witnessed: an oracle that always errors makes the first attempt the
only one, and its message is surfaced as `llmError`. -/
theorem C5_oracle_failure_witness :
    ScriptGenerator.generateGo oracleBoom .like [] 0
      = ({ success := false, llmError := some (str "boom") }, 1) := by
  have h := C5_oracle_failure oracleBoom .like [] 0 (by decide)
    (Or.inr ⟨str "boom", rfl, by decide⟩)
  simpa using h

theorem collectAdjustments_eq_filterMap (errors : List ValidationError)
    (len : Nat) :
    RetryStrategy.collectAdjustments errors len
      = errors.filterMap (fun e => directiveFor e.code len) := by
  induction errors with
  | nil => rfl
  | cons e t ih =>
    cases hc : e.code <;>
      simp [RetryStrategy.collectAdjustments, RetryStrategy.adjustmentForError,
        directiveFor, hc, ih, List.filterMap_cons]

/-- C9 counterexample: with the single distinct violated code
`INVALID_ORDER`, `adjustPrompt` appends nothing — the prompt comes back
unchanged (here, still empty), with no correction section and no directive,
contradicting "one corrective directive per distinct violated error code". -/
theorem C9_counterexample :
    RetryStrategy.adjustPrompt [] [⟨.INVALID_ORDER, []⟩] 300 = []
  ∧ RetryStrategy.collectAdjustments [⟨.INVALID_ORDER, []⟩] 300 = [] := by
  constructor <;> rfl

/-- C9 amended: `adjustPrompt` appends, under the fixed correction section,
one corrective directive per error *entry* whose code owns a directive —
every code except `INVALID_ORDER`, which contributes nothing — with the
shortfall/excess interpolated into the length directives; when no entry
yields a directive the prompt is returned unchanged with no section.  The
orchestrator applies it to the current (already-adjusted) prompt: a
retrying attempt recurses on exactly `adjustPrompt` of the prompt it just
used, so corrections accumulate across iterations. -/
theorem C9_adjustPrompt_amended :
    (∀ (originalPrompt : Str) (errors : List ValidationError) (len : Nat),
        RetryStrategy.adjustPrompt originalPrompt errors len
          = if (errors.filterMap (fun e => directiveFor e.code len)).isEmpty
            then originalPrompt
            else originalPrompt ++ RetryStrategy.correctionHeader
              ++ joinNL (errors.filterMap (fun e => directiveFor e.code len)))
  ∧ (∀ len, directiveFor .INVALID_ORDER len = none)
  ∧ (∀ (code : ValidationErrorCode) (len : Nat), code ≠ .INVALID_ORDER →
        (directiveFor code len).isSome = true)
  ∧ (∀ len, directiveFor .TOO_SHORT len
        = some (RetryStrategy.tooShortAdjustment len)
      ∧ directiveFor .TOO_LONG len = some (RetryStrategy.tooLongAdjustment len))
  ∧ (∀ (oracle : Nat → Str → LLMResponse) (p : CtaPurpose) (prompt : Str)
        (attempt : Nat) (s : Script),
        attempt < MAX_RETRIES → attempt + 1 < MAX_RETRIES →
        (oracle attempt prompt).script = some s →
        (oracle attempt prompt).error = none →
        (validateScript s p).valid = false →
        (determineRetryAction (validateScript s p).errors
            (ScriptGenerator.calculateScriptLength s)).action = .retry_with_prompt →
        ScriptGenerator.generateGo oracle p prompt attempt
          = (let next := ScriptGenerator.generateGo oracle p
              (RetryStrategy.adjustPrompt prompt (validateScript s p).errors
                (ScriptGenerator.calculateScriptLength s)) (attempt + 1)
             (next.1, next.2 + 1))) := by
  refine ⟨?_, ?_, ?_, ?_, ?_⟩
  · intro originalPrompt errors len
    simp only [RetryStrategy.adjustPrompt, collectAdjustments_eq_filterMap]
  · intro len
    rfl
  · intro code len hne
    cases code <;> simp_all [directiveFor]
  · intro len
    exact ⟨rfl, rfl⟩
  · intro oracle p prompt attempt s h h2 hs he hv ha
    exact generateGo_continue oracle p prompt attempt s h hs
      (by rw [he]; rfl) hv ha h2

set_option maxRecDepth 4000 in
/-- C9 amended, witnessed: a first attempt that fails retryably recurses on
the adjusted current prompt, and a handled code owns a directive. -/
theorem C9_adjustPrompt_amended_witness :
    (directiveFor .CONTAINS_EMOJI 100).isSome = true
  ∧ ScriptGenerator.generateGo oracleAlways200 .like [] 0
      = (let next := ScriptGenerator.generateGo oracleAlways200 .like
          (RetryStrategy.adjustPrompt [] (validateScript script200 .like).errors
            (ScriptGenerator.calculateScriptLength script200)) 1
         (next.1, next.2 + 1)) := by
  constructor
  · exact C9_adjustPrompt_amended.2.2.1 .CONTAINS_EMOJI 100 (by decide)
  · exact C9_adjustPrompt_amended.2.2.2.2 oracleAlways200 .like [] 0 script200
      (by decide) (by decide) rfl rfl (by decide) (by decide)

set_option maxRecDepth 4000 in
/-- C2 witnessed at the boundary counts 249/250 and 400/401. -/
theorem C2_validateScript_length_witness :
    ((⟨.TOO_SHORT, tooShortMsg 249⟩ : ValidationError)
        ∈ (validateScript (scriptOfLen 249) .like).errors)
  ∧ ((⟨.TOO_SHORT, tooShortMsg 250⟩ : ValidationError)
        ∉ (validateScript (scriptOfLen 250) .like).errors)
  ∧ ((⟨.TOO_LONG, tooLongMsg 400⟩ : ValidationError)
        ∉ (validateScript (scriptOfLen 400) .like).errors)
  ∧ ((⟨.TOO_LONG, tooLongMsg 401⟩ : ValidationError)
        ∈ (validateScript (scriptOfLen 401) .like).errors) := by
  have h249 : totalLength (scriptOfLen 249) = 249 := by decide
  have h250 : totalLength (scriptOfLen 250) = 250 := by decide
  have h400 : totalLength (scriptOfLen 400) = 400 := by decide
  have h401 : totalLength (scriptOfLen 401) = 401 := by decide
  refine ⟨?_, ?_, ?_, ?_⟩
  · have h := (C2_validateScript_length (scriptOfLen 249) .like).1
    rw [h249] at h
    exact h.mpr (by omega)
  · intro hmem
    have h := (C2_validateScript_length (scriptOfLen 250) .like).1
    rw [h250] at h
    exact absurd (h.mp hmem) (by omega)
  · intro hmem
    have h := (C2_validateScript_length (scriptOfLen 400) .like).2.1
    rw [h400] at h
    exact absurd (h.mp hmem) (by omega)
  · have h := (C2_validateScript_length (scriptOfLen 401) .like).2.1
    rw [h401] at h
    exact h.mpr (by omega)

set_option maxRecDepth 4000 in
/-- C7 witnessed: a fully conforming candidate validates, an emoji-bearing
candidate carries the emoji error, and a candidate failing only the length
check carries no structure error. -/
theorem C7_validateScript_accumulation_witness :
    (validateScript scriptValid .like).valid = true
  ∧ ((⟨.CONTAINS_EMOJI, emojiMsg⟩ : ValidationError)
        ∈ (validateScript scriptEmoji .like).errors)
  ∧ ((⟨.MISSING_HOOK, missingHookMsg⟩ : ValidationError)
        ∉ (validateScript script200 .like).errors) := by
  refine ⟨?_, ?_, ?_⟩
  · exact (C7_validateScript_accumulation scriptValid .like).1.mpr (by decide)
  · exact (C7_validateScript_accumulation scriptEmoji .like).2.2.2.2.2.1.mpr
      (by decide)
  · intro hmem
    have h := (C7_validateScript_accumulation script200 .like).2.2.1.mp hmem
    exact absurd h (by decide)

end ShortsWriter

